import Mathlib

/-!
Verification of the tile-game development server (`server.py`).

The program is a thin wrapper around a standard-library static file server:
it parses an optional port argument, binds on localhost, overrides the
content type for `.js` files, schedules a one-shot browser-open timer, and
serves until interrupted.  We model it as pure functions: the observable
behaviour of a run is a list of events plus an outcome.
-/

namespace Server

/-- Python `str.endswith(suffix)`: the suffix check on the characters of the
string, case-sensitive. -/
def pyEndswith (s suffix : String) : Bool :=
  List.isSuffixOf suffix.data s.data

/-- Modelled from the spec: the default content-type resolution of the
standard file-serving handler (the superclass `SimpleHTTPRequestHandler`),
which "maps common extensions to standard MIME types and falls back to a
generic binary/octet type for unknown ones".  Only the extensions the spec
mentions are listed; everything else falls back to the generic binary type. -/
def defaultGuessType (path : String) : String :=
  if pyEndswith path ".html" then "text/html"
  else if pyEndswith path ".css" then "text/css"
  else "application/octet-stream"

/-- `JSHandler.guess_type`, parameterised by the superclass resolution
`su` (the call `super().guess_type(path)`):
if the path ends with the string ".js" return the JavaScript MIME type,
otherwise delegate to the superclass. -/
def guess_type (su : String → String) (path : String) : String :=
  if pyEndswith path ".js" then "application/javascript"
  else su path

/-- The concrete handler resolution: `JSHandler.guess_type` over the
modelled default. -/
def jsHandlerGuessType (path : String) : String :=
  guess_type defaultGuessType path

/-- Observable events of a run of the program, in order. -/
inductive Event where
  /-- `HTTPServer((host, port), JSHandler)` attempts to bind a listening
  socket at the given address. -/
  | bind (host : String) (port : Int)
  /-- A `print(msg)` call (the newline added by `print` is not part of
  `msg`). -/
  | printed (msg : String)
  /-- `Timer(delaySec, f).start()`: a one-shot timer that runs its callback
  exactly once, `delaySec` seconds later.  Here the callback is
  `webbrowser.open(url)`. -/
  | timerBrowserOpen (delaySec : Nat) (url : String)
  /-- `server.serve_forever()` is entered: the blocking serve loop. -/
  | serveLoop
  deriving DecidableEq, Repr

/-- How a call to `start_server` ends. -/
inductive Outcome where
  /-- The function returns normally (falls off the end of a handler or of
  the body). -/
  | returned
  /-- The serve loop runs forever: the call never returns. -/
  | blocked
  deriving DecidableEq, Repr

/-- The exit code of the process when `start_server` is the last statement:
a normal return exits with code 0, a blocked call never exits. -/
def exitCodeOf : Outcome → Option Nat
  | Outcome.returned => some 0
  | Outcome.blocked => none

/-- The environment of one run: which of the two modelled exceptions the
outside world raises.  `bindFails` means the `HTTPServer` constructor
raises `OSError`; `interrupted` means a `KeyboardInterrupt` is raised while
blocked in `serve_forever`. -/
structure Env where
  bindFails : Bool
  interrupted : Bool
  deriving DecidableEq, Repr

/-- The result of a run: its event trace and its outcome. -/
structure RunResult where
  events : List Event
  outcome : Outcome
  deriving DecidableEq, Repr

/-- The default of the `port` parameter of `start_server`. -/
def DEFAULT_PORT : Int := 8000

/-- The URL built by `start_server` for a port. -/
def urlOf (port : Int) : String :=
  "http://localhost:" ++ toString port ++ "/index.html"

/-- The message printed on the `OSError` path of `start_server`. -/
def portInUseMsg (port : Int) : String :=
  "Port " ++ toString port ++ " in use. Try: python server.py " ++
    toString (port + 1)

/-- `start_server(port)`: try to bind `HTTPServer(('localhost', port))`.
On `OSError` during the bind, print the port-in-use suggestion and return.
On success, print the two startup messages, start the one-shot 1.0-second
browser-open timer, and enter `serve_forever`; a `KeyboardInterrupt` there
is caught, the stop message is printed, and the function returns. -/
def start_server (env : Env) (port : Int) : RunResult :=
  if env.bindFails then
    { events := [Event.bind "localhost" port,
                 Event.printed (portInUseMsg port)],
      outcome := Outcome.returned }
  else
    let url := urlOf port
    let pre := [Event.bind "localhost" port,
                Event.printed ("Server running at " ++ url),
                Event.printed "Press Ctrl+C to stop",
                Event.timerBrowserOpen 1 url,
                Event.serveLoop]
    if env.interrupted then
      { events := pre ++ [Event.printed "\nServer stopped"],
        outcome := Outcome.returned }
    else
      { events := pre, outcome := Outcome.blocked }

/-- The starting code points of the runs of Unicode decimal digits
(category Nd, Unicode 14.0, the table CPython 3.11 ships): every Nd
character sits in a run of ten consecutive code points holding the digits
0 to 9 in order, and Python `int` accepts any of them as a digit. -/
def ndRangeStarts : List Nat :=
  [0x30, 0x660, 0x6f0, 0x7c0, 0x966, 0x9e6, 0xa66, 0xae6, 0xb66, 0xbe6,
   0xc66, 0xce6, 0xd66, 0xde6, 0xe50, 0xed0, 0xf20, 0x1040, 0x1090, 0x17e0,
   0x1810, 0x1946, 0x19d0, 0x1a80, 0x1a90, 0x1b50, 0x1bb0, 0x1c40, 0x1c50,
   0xa620, 0xa8d0, 0xa900, 0xa9d0, 0xa9f0, 0xaa50, 0xabf0, 0xff10, 0x104a0,
   0x10d30, 0x11066, 0x110f0, 0x11136, 0x111d0, 0x112f0, 0x11450, 0x114d0,
   0x11650, 0x116c0, 0x11730, 0x118e0, 0x11950, 0x11c50, 0x11d50, 0x11da0,
   0x16a60, 0x16ac0, 0x16b50, 0x1d7ce, 0x1d7d8, 0x1d7e2, 0x1d7ec, 0x1d7f6,
   0x1e140, 0x1e2f0, 0x1e950, 0x1fbf0]

/-- The decimal value of a character under Python `int`: its offset in the
Nd run containing it, if any. -/
def digitValue (c : Char) : Option Nat :=
  (ndRangeStarts.find? (fun s =>
      decide (s ≤ c.toNat) && decide (c.toNat < s + 10))).map
    (fun s => c.toNat - s)

/-- The code points Python `int` strips from both ends of its argument:
the str-whitespace set (ASCII whitespace, NEL, NBSP and the Unicode
space/separator characters). -/
def pySpaceCodes : List Nat :=
  [0x9, 0xa, 0xb, 0xc, 0xd, 0x20, 0x85, 0xa0, 0x1680,
   0x2000, 0x2001, 0x2002, 0x2003, 0x2004, 0x2005, 0x2006, 0x2007,
   0x2008, 0x2009, 0x200a, 0x2028, 0x2029, 0x202f, 0x205f, 0x3000]

/-- Whether Python `int` treats a character as surrounding whitespace. -/
def pyIsSpace (c : Char) : Bool :=
  pySpaceCodes.contains c.toNat

/-- The whitespace strip that Python `int(s)` applies to both ends of its
argument before parsing. -/
def pyStrip (l : List Char) : List Char :=
  ((l.dropWhile pyIsSpace).reverse.dropWhile pyIsSpace).reverse

/-- The tail of Python `int`'s digit run after its first digit: zero or
more further digits, a single underscore allowed between two digits
(PEP 515); an underscore at the end, doubled, or before a non-digit is an
error. -/
def pyDigitsGo : List Char → Nat → Option Nat
  | [], acc => some acc
  | '_' :: c :: rest, acc =>
    match digitValue c with
    | some d => pyDigitsGo rest (10 * acc + d)
    | none => none
  | ['_'], _ => none
  | c :: rest, acc =>
    match digitValue c with
    | some d => pyDigitsGo rest (10 * acc + d)
    | none => none

/-- The digit run of Python `int` after the optional sign: at least one
decimal digit, then `pyDigitsGo`.  A leading underscore is an error. -/
def pyIntDigits : List Char → Option Nat
  | [] => none
  | c :: rest =>
    match digitValue c with
    | some d => pyDigitsGo rest d
    | none => none

/-- Sign handling of Python `int(s)` after stripping whitespace. -/
def pyIntCore (l : List Char) : Option Int :=
  match l with
  | '-' :: rest => (pyIntDigits rest).map (fun n => -(n : Int))
  | '+' :: rest => (pyIntDigits rest).map (fun n => (n : Int))
  | _ => (pyIntDigits l).map (fun n => (n : Int))

/-- Python `int(s)` for a string argument (base 10): strip str-whitespace
from both ends, then an optional sign followed by a run of Unicode decimal
digits with optional single underscores between digits; anything else
raises `ValueError`, modelled as `none`. -/
def pyInt (s : String) : Option Int :=
  pyIntCore (pyStrip s.data)

/-- The `ValueError` raised by `int` on an unparseable argument; it is not
caught anywhere in the program. -/
inductive PyError where
  | valueError
  deriving DecidableEq, Repr

/-- The port selection line of the `__main__` block:
`int(sys.argv[1]) if len(sys.argv) > 1 else 8000`.  `argv` is the full
argument vector including the script name at index 0. -/
def selectPort (argv : List String) : Except PyError Int :=
  match argv with
  | _ :: a :: _ =>
    match pyInt a with
    | some p => Except.ok p
    | none => Except.error PyError.valueError
  | _ => Except.ok DEFAULT_PORT

/-- The whole `__main__` block: select the port, then run `start_server`.
A `ValueError` from `int` escapes before `start_server` is called, so the
erroring run has no events at all. -/
def mainRun (env : Env) (argv : List String) : Except PyError RunResult :=
  match selectPort argv with
  | Except.ok p => Except.ok (start_server env p)
  | Except.error e => Except.error e

/-- Count of scheduled browser-open timers in a trace. -/
def timerCount (evs : List Event) : Nat :=
  evs.countP (fun e =>
    match e with
    | Event.timerBrowserOpen _ _ => true
    | _ => false)

end Server

namespace Server

/-- If two lists are both suffixes of the same list and have the same
length, they are equal. -/
theorem suffix_eq_of_length {α : Type} {s₁ s₂ l : List α}
    (h₁ : s₁ <:+ l) (h₂ : s₂ <:+ l) (hl : s₁.length = s₂.length) : s₁ = s₂ := by
  obtain ⟨t₁, rfl⟩ := h₁
  obtain ⟨t₂, ht⟩ := h₂
  exact (List.append_inj' ht hl.symm).2.symm

/-- A path that ends in ".JS" does not end in ".js". -/
theorem endswith_JS_not_js (path : String) (h : pyEndswith path ".JS" = true) :
    pyEndswith path ".js" = false := by
  rw [pyEndswith, List.isSuffixOf_iff_suffix] at h
  by_contra hc
  rw [Bool.not_eq_false, pyEndswith, List.isSuffixOf_iff_suffix] at hc
  have heq : (".JS").data = (".js").data :=
    suffix_eq_of_length h hc (by decide)
  simp at heq

/-- Claim C1: for every requested path whose string ends in ".js", the
content-type resolution `guess_type` returns "application/javascript",
whatever the superclass resolution (and hence the file's contents) would
say. -/
theorem C1_js_forces_javascript (su : String → String) (path : String)
    (h : pyEndswith path ".js" = true) :
    guess_type su path = "application/javascript" := by
  simp [guess_type, h]

/-- Witness for C1 at the concrete path "game.js". -/
theorem C1_js_forces_javascript_witness :
    pyEndswith "game.js" ".js" = true ∧
    guess_type defaultGuessType "game.js" = "application/javascript" :=
  ⟨by decide, C1_js_forces_javascript defaultGuessType "game.js" (by decide)⟩

/-- Claim C2: started with no command-line argument (an argument vector
holding only the script name), the program runs `start_server` with port
8000, and the bind attempt targets port 8000. -/
theorem C2_no_argument_uses_port_8000 (env : Env) (prog : String) :
    mainRun env [prog] = Except.ok (start_server env 8000) ∧
    (start_server env 8000).events.head? = some (Event.bind "localhost" 8000) := by
  refine ⟨rfl, ?_⟩
  rcases env with ⟨bf, intr⟩
  cases bf <;> cases intr <;> rfl

/-- Claim C3: when the bind raises an OS-level socket error, the run prints
exactly one message, "Port P in use. Try: python server.py Q" with
Q = P + 1, the serve loop is never entered, and `start_server` returns. -/
theorem C3_bind_failure_prints_suggestion (env : Env) (port : Int)
    (h : env.bindFails = true) :
    (start_server env port).events =
      [Event.bind "localhost" port,
       Event.printed ("Port " ++ toString port ++ " in use. Try: python server.py "
         ++ toString (port + 1))] ∧
    Event.serveLoop ∉ (start_server env port).events ∧
    (start_server env port).outcome = Outcome.returned := by
  simp [start_server, h, portInUseMsg]

/-- Witness for C3 at port 8000 in an environment whose bind fails. -/
theorem C3_bind_failure_prints_suggestion_witness :
    (start_server ⟨true, false⟩ 8000).events =
      [Event.bind "localhost" 8000,
       Event.printed ("Port " ++ toString (8000 : Int) ++ " in use. Try: python server.py "
         ++ toString ((8000 : Int) + 1))] ∧
    Event.serveLoop ∉ (start_server ⟨true, false⟩ 8000).events ∧
    (start_server ⟨true, false⟩ 8000).outcome = Outcome.returned :=
  C3_bind_failure_prints_suggestion ⟨true, false⟩ 8000 rfl

/-- Claim C4: a keyboard interrupt in the serve loop is caught, the stop
message is the last thing printed, and `start_server` returns normally. -/
theorem C4_interrupt_prints_stop_and_returns (env : Env) (port : Int)
    (hb : env.bindFails = false) (hi : env.interrupted = true) :
    (start_server env port).events.getLast? =
      some (Event.printed "\nServer stopped") ∧
    (start_server env port).outcome = Outcome.returned := by
  simp [start_server, hb, hi]

/-- Witness for C4 at port 8000 in an interrupted environment. -/
theorem C4_interrupt_prints_stop_and_returns_witness :
    (start_server ⟨false, true⟩ 8000).events.getLast? =
      some (Event.printed "\nServer stopped") ∧
    (start_server ⟨false, true⟩ 8000).outcome = Outcome.returned :=
  C4_interrupt_prints_stop_and_returns ⟨false, true⟩ 8000 rfl rfl

/-- Claim C5: for a numeric first argument parsing to P, the program runs
`start_server` with port P and its first action is the bind attempt on
localhost at port P. -/
theorem C5_numeric_argument_binds_that_port (env : Env) (prog a : String)
    (rest : List String) (p : Int) (h : pyInt a = some p) :
    mainRun env (prog :: a :: rest) = Except.ok (start_server env p) ∧
    (start_server env p).events.head? = some (Event.bind "localhost" p) := by
  constructor
  · simp [mainRun, selectPort, h]
  · rcases env with ⟨bf, intr⟩
    cases bf <;> cases intr <;> rfl

/-- Witness for C5 with the argument "8_000", which Python `int` parses to
8000 thanks to PEP 515 underscore grouping. -/
theorem C5_numeric_argument_binds_that_port_witness :
    mainRun ⟨false, true⟩ ["server.py", "8_000"] =
      Except.ok (start_server ⟨false, true⟩ 8000) ∧
    (start_server ⟨false, true⟩ (8000 : Int)).events.head? =
      some (Event.bind "localhost" 8000) :=
  C5_numeric_argument_binds_that_port ⟨false, true⟩ "server.py" "8_000" [] 8000
    (by decide)

/-- Claim C6: for a path not ending in ".js" the handler delegates to the
superclass resolution; the modelled default maps ".html" to the standard
HTML type and an unknown extension to the generic binary type. -/
theorem C6_non_js_delegates_to_default (su : String → String) (path : String)
    (h : pyEndswith path ".js" = false) :
    guess_type su path = su path ∧
    defaultGuessType "index.html" = "text/html" ∧
    defaultGuessType "weird.xyz" = "application/octet-stream" :=
  ⟨by simp [guess_type, h], by decide, by decide⟩

/-- Witness for C6 at the concrete path "index.html". -/
theorem C6_non_js_delegates_to_default_witness :
    guess_type defaultGuessType "index.html" = defaultGuessType "index.html" ∧
    defaultGuessType "index.html" = "text/html" ∧
    defaultGuessType "weird.xyz" = "application/octet-stream" :=
  C6_non_js_delegates_to_default defaultGuessType "index.html" (by decide)

/-- Claim C7: after a successful bind on port P exactly one one-shot
browser-open timer is scheduled, with a 1-second delay, targeting
the URL built from P and "/index.html". -/
theorem C7_one_timer_scheduled (env : Env) (port : Int)
    (h : env.bindFails = false) :
    timerCount (start_server env port).events = 1 ∧
    Event.timerBrowserOpen 1 ("http://localhost:" ++ toString port ++ "/index.html")
      ∈ (start_server env port).events := by
  rcases env with ⟨bf, intr⟩
  cases bf
  · cases intr <;> simp [start_server, timerCount, urlOf, List.countP_cons]
  · exact absurd h (by simp)

/-- Witness for C7 at port 8000 in an uninterrupted environment. -/
theorem C7_one_timer_scheduled_witness :
    timerCount (start_server ⟨false, false⟩ 8000).events = 1 ∧
    Event.timerBrowserOpen 1
        ("http://localhost:" ++ toString (8000 : Int) ++ "/index.html")
      ∈ (start_server ⟨false, false⟩ 8000).events :=
  C7_one_timer_scheduled ⟨false, false⟩ 8000 rfl

/-- Claim C8: on both terminating paths (bind error, or interrupt during
the serve loop) `start_server` returns normally after printing, so the
process exit code is the default 0. -/
theorem C8_error_paths_return_normally (env : Env) (port : Int)
    (h : env.bindFails = true ∨ env.interrupted = true) :
    (start_server env port).outcome = Outcome.returned ∧
    exitCodeOf (start_server env port).outcome = some 0 ∧
    ∃ m, (start_server env port).events.getLast? = some (Event.printed m) := by
  rcases env with ⟨bf, intr⟩
  cases bf <;> cases intr <;>
    simp_all [start_server, exitCodeOf, portInUseMsg]

/-- Witness for C8 on the bind-error path at port 8000. -/
theorem C8_error_paths_return_normally_witness :
    (start_server ⟨true, false⟩ 8000).outcome = Outcome.returned ∧
    exitCodeOf (start_server ⟨true, false⟩ 8000).outcome = some 0 ∧
    ∃ m, (start_server ⟨true, false⟩ 8000).events.getLast? =
      some (Event.printed m) :=
  C8_error_paths_return_normally ⟨true, false⟩ 8000 (Or.inl rfl)

/-- Claim C9: an unparseable first argument makes the `__main__` block
raise ValueError: the run is an error carrying no events, so no server is
created, nothing is bound, and the handlers inside `start_server` are
never reached. -/
theorem C9_bad_argument_raises_value_error (env : Env) (prog a : String)
    (rest : List String) (h : pyInt a = none) :
    mainRun env (prog :: a :: rest) = Except.error PyError.valueError := by
  simp [mainRun, selectPort, h]

/-- Witness for C9 with the non-numeric argument "abc". -/
theorem C9_bad_argument_raises_value_error_witness :
    pyInt "abc" = none ∧
    mainRun ⟨false, false⟩ ["server.py", "abc", "x"] =
      Except.error PyError.valueError :=
  ⟨by decide,
   C9_bad_argument_raises_value_error ⟨false, false⟩ "server.py" "abc" ["x"]
     (by decide)⟩

/-- Claim C10: the ".js" override is case-sensitive.  First conjunct: the
forced "application/javascript" branch is taken exactly when the path ends
in the exact lowercase ".js"; otherwise the handler delegates.  Second
conjunct: a path ending in any other casing of the suffix — a dot, then a
casing of the letter j, then a casing of the letter s, not both lowercase
(".JS", ".Js", ".jS") — is delegated to the superclass resolution. -/
theorem C10_js_override_case_sensitive :
    (∀ (su : String → String) (path : String),
        (pyEndswith path ".js" = true ∧
          guess_type su path = "application/javascript") ∨
        (pyEndswith path ".js" = false ∧ guess_type su path = su path)) ∧
    (∀ (su : String → String) (path : String) (cj cs : Char),
        (cj = 'j' ∨ cj = 'J') → (cs = 's' ∨ cs = 'S') →
        ¬(cj = 'j' ∧ cs = 's') → ['.', cj, cs] <:+ path.data →
        guess_type su path = su path) := by
  constructor
  · intro su path
    cases h : pyEndswith path ".js"
    · exact Or.inr ⟨rfl, by simp [guess_type, h]⟩
    · exact Or.inl ⟨rfl, by simp [guess_type, h]⟩
  · intro su path cj cs hj hs hne hsuf
    have hjs : pyEndswith path ".js" = false := by
      by_contra hc
      rw [Bool.not_eq_false, pyEndswith, List.isSuffixOf_iff_suffix] at hc
      have heq : (".js").data = ['.', cj, cs] :=
        suffix_eq_of_length hc hsuf rfl
      have hdata : (".js").data = ['.', 'j', 's'] := rfl
      rw [hdata] at heq
      simp only [List.cons.injEq, and_true, true_and] at heq
      exact hne ⟨heq.1.symm, heq.2.symm⟩
    simp [guess_type, hjs]

/-- Witness for C10 at the concrete mixed-casing path "game.Js". -/
theorem C10_js_override_case_sensitive_witness :
    guess_type defaultGuessType "game.Js" = defaultGuessType "game.Js" :=
  C10_js_override_case_sensitive.2 defaultGuessType "game.Js" 'J' 's'
    (Or.inr rfl) (Or.inl rfl) (by decide) (by decide)

end Server
